import Mathlib

/-!
Verification of the risk-scoring and strategic-decision core of an
AI bird-strike detection system.

The development shallowly embeds the Python source:

* `backend/bird_communication_system.py`:
  `analyze_communication_patterns`, `predict_behavioral_intent`,
  `calculate_enhanced_risk_score`, and the alert-level thresholds of
  `analyze_audio_with_ai`.
* `backend/strategic_response.py`:
  `PredatorSoundLibrary.get_effective_predator_sound`,
  `play_predator_sound`, `stop_predator_sound`,
  `StrategicResponseSystem.execute_automated_response`,
  the strategy templates, and `_calculate_confidence_score` together with
  `AIDecisionEngine._get_historical_context`.

Python floats are modelled as rationals (`ℚ`); Python dictionaries whose
keys may be absent are modelled with `Option` fields, where a `none`
field read outside a `try` block corresponds to an uncaught `KeyError`.
-/

namespace BirdStrike

/-- The `patterns` dictionary built by `analyze_communication_patterns` and
stored in `communication_history`.  Fields are `Option`-valued because
`predict_behavioral_intent` may be handed a mapping that lacks some keys;
reading a `none` field models a Python `KeyError`. -/
structure PatternDict where
  call_type : Option String
  emotional_state : Option String
  behavioral_context : Option String
  urgency_level : Option String
  flock_communication : Option Bool
  territorial_behavior : Option Bool
  alarm_signal : Option Bool
deriving DecidableEq, Repr

/-- The default pattern dictionary literal at the top of
`analyze_communication_patterns` (every key present). -/
def defaultPatterns : PatternDict :=
  { call_type := some "unknown"
    emotional_state := some "neutral"
    behavioral_context := some "normal"
    urgency_level := some "low"
    flock_communication := some false
    territorial_behavior := some false
    alarm_signal := some false }

/-- The acoustic feature summary consumed by
`analyze_communication_patterns`: mean spectral centroid, rhythmic tempo
(`features.get('tempo', 0)`), and the variance of the zero-crossing rate. -/
structure AudioFeatures where
  spectralCentroidMean : ℚ
  tempo : ℚ
  zcrVariance : ℚ
deriving DecidableEq, Repr

/-- `HIGH_RISK_SPECIES[...]['alarm_patterns']` from
`bird_communication_system.py` (`.get('alarm_patterns', [])` for species
outside the catalog). -/
def speciesAlarmPatterns (scientific : String) : List String :=
  if scientific = "Corvus splendens" then ["rapid_succession", "pitch_variation"]
  else if scientific = "Corvus macrorhynchos" then ["descending_pitch", "repeated_calls"]
  else if scientific = "Haliaeetus leucogaster" then ["extended_calls", "circling_behavior"]
  else if scientific = "Acridotheres javanicus" then ["chorus_calling", "synchronized_movement"]
  else []

/-- `HIGH_RISK_SPECIES.get(species, {}).get('risk', 0.3)` from
`calculate_enhanced_risk_score`. -/
def speciesRiskLookup (scientific : String) : ℚ :=
  if scientific = "Corvus splendens" then 0.9
  else if scientific = "Corvus macrorhynchos" then 0.8
  else if scientific = "Haliaeetus leucogaster" then 0.95
  else if scientific = "Acridotheres javanicus" then 0.7
  else 0.3

/-- `analyze_communication_patterns(audio_features, species_info)`.
`features = none` models a falsy `audio_features` (extraction failed);
`speciesInfo` carries the `scientific` entry of the `species_info`
dictionary, `none` modelling a falsy `species_info`.  The sequential
dictionary updates of the Python body are rendered as a chain of record
updates, in source order. -/
def analyzeCommunicationPatterns (features : Option AudioFeatures)
    (speciesInfo : Option String) : PatternDict :=
  match features with
  | none => defaultPatterns
  | some f =>
    let p := defaultPatterns
    let p :=
      if f.spectralCentroidMean > 3000 then
        { p with call_type := some "high_frequency_alert", urgency_level := some "high" }
      else if f.spectralCentroidMean > 1500 then
        { p with call_type := some "territorial_call", territorial_behavior := some true }
      else
        { p with call_type := some "contact_call" }
    let p :=
      if f.tempo > 150 then
        { p with flock_communication := some true,
                 behavioral_context := some "group_coordination" }
      else p
    let p :=
      if f.zcrVariance > 0.01 then
        { p with alarm_signal := some true, emotional_state := some "alarmed",
                 urgency_level := some "high" }
      else p
    match speciesInfo with
    | none => p
    | some sci =>
      let alarmPatterns := speciesAlarmPatterns sci
      let p :=
        if "rapid_succession" ∈ alarmPatterns ∧ f.tempo > 180 then
          { p with behavioral_context := some "immediate_threat_response",
                   urgency_level := some "critical" }
        else p
      let p :=
        if "pitch_variation" ∈ alarmPatterns ∧ f.zcrVariance > 0.015 then
          { p with behavioral_context := some "predator_warning",
                   urgency_level := some "high" }
        else p
      p

/-- The result dictionary of `predict_behavioral_intent`: primary intent,
its confidence, and the `all_scores` mapping (an insertion-ordered
association list, mirroring a Python dict). -/
structure BehavioralPrediction where
  primary_intent : String
  confidence : ℚ
  all_scores : List (String × ℚ)
deriving DecidableEq, Repr

/-- Sum of the values of an insertion-ordered dictionary
(`sum(d.values())`). -/
def sumValues (l : List (String × ℚ)) : ℚ :=
  (l.map Prod.snd).sum

/-- One comparison step of Python's `max`: the current best is replaced
only on a strictly greater value. -/
def maxStep (best q : String × ℚ) : String × ℚ :=
  if q.2 > best.2 then q else best

/-- `max(d, key=d.get)` over an insertion-ordered, nonempty dictionary:
Python's `max` scans in iteration order and replaces the current best only
on a strictly greater value, so the first maximum wins.  The empty case is
unreachable in the source (the dict literal always has five keys). -/
def firstMax : List (String × ℚ) → String × ℚ
  | [] => ("", 0)
  | x :: xs => xs.foldl maxStep x

/-- The additive contributions of `predict_behavioral_intent`, before
normalization, in declaration order `(landing_approach, territory_defense,
flock_gathering, predator_avoidance, normal_flight)`: the three pattern
flags and the two last-5-history frequency checks (history entries are
read with `.get(..., False)` and never raise). -/
def intentContributions (alarm territorial flock : Bool)
    (history : List PatternDict) : ℚ × ℚ × ℚ × ℚ × ℚ :=
  let pa : ℚ := if alarm then 0.4 else 0
  let td : ℚ := if territorial then 0.3 else 0
  let fg : ℚ := if flock then 0.4 else 0
  let recentPatterns := history.drop (history.length - 5)
  let alarmFrequency :=
    (recentPatterns.filter (fun q => q.alarm_signal.getD false)).length
  let territorialFrequency :=
    (recentPatterns.filter (fun q => q.territorial_behavior.getD false)).length
  let pa := if alarmFrequency > 2 then pa + 0.3 else pa
  let td := if territorialFrequency > 1 then td + 0.2 else td
  (0, td, fg, pa, 0)

/-- `predict_behavioral_intent(communication_patterns, historical_data)`.
The body runs inside `try`: if any of the three direct key reads
(`['alarm_signal']`, `['territorial_behavior']`, `['flock_communication']`)
raises `KeyError`, the `except` branch returns
`{'primary_intent': 'unknown', 'confidence': 0.0, 'all_scores': {}}`.
`confidence = intent_scores[primary_intent]` is the value of the winning
pair, the dictionary keys being distinct. -/
def predictBehavioralIntent (p : PatternDict) (history : List PatternDict) :
    BehavioralPrediction :=
  match p.alarm_signal, p.territorial_behavior, p.flock_communication with
  | some alarm, some territorial, some flock =>
    let (la, td, fg, pa, nf) := intentContributions alarm territorial flock history
    let totalScore := la + td + fg + pa + nf
    let (la, td, fg, pa, nf) :=
      if totalScore > 0 then
        (la / totalScore, td / totalScore, fg / totalScore,
         pa / totalScore, nf / totalScore)
      else (la, td, fg, pa, 1)
    let intentScores :=
      [("landing_approach", la), ("territory_defense", td),
       ("flock_gathering", fg), ("predator_avoidance", pa),
       ("normal_flight", nf)]
    let best := firstMax intentScores
    { primary_intent := best.1, confidence := best.2, all_scores := intentScores }
  | _, _, _ => { primary_intent := "unknown", confidence := 0, all_scores := [] }

/-- The `intent_multipliers` table of `calculate_enhanced_risk_score`,
with the `.get(primary_intent, 1.0)` default for unknown intents. -/
def intentMultipliers (intent : String) : ℚ :=
  if intent = "landing_approach" then 1.5
  else if intent = "territory_defense" then 1.3
  else if intent = "flock_gathering" then 1.2
  else if intent = "predator_avoidance" then 0.8
  else if intent = "normal_flight" then 1.0
  else 1.0

/-- `calculate_enhanced_risk_score(species, confidence, communication_patterns,
behavioral_intent)`.  The three direct key reads on the pattern dictionary
are not guarded by any handler, so a missing key (a `none` field) makes
the whole call fail (`Option.none` models the uncaught `KeyError`). -/
def calculateEnhancedRiskScore (species : String) (confidence : ℚ)
    (p : PatternDict) (bi : BehavioralPrediction) : Option ℚ :=
  match p.alarm_signal, p.urgency_level, p.flock_communication with
  | some alarm, some urgency, some flock =>
    let baseRisk := speciesRiskLookup species
    let risk := baseRisk * confidence
    let risk := risk + (if alarm then (0.2 : ℚ) else 0)
    let risk := risk +
      (if urgency = "critical" then (0.3 : ℚ)
       else if urgency = "high" then 0.15 else 0)
    let risk := risk + (if flock then (0.1 : ℚ) else 0)
    let multiplier := intentMultipliers bi.primary_intent
    let risk := risk * (1 + (multiplier - 1) * bi.confidence)
    some (min risk 1)
  | _, _, _ => none

/-- The alert-level / recommended-action mapping applied to the risk score
inside `analyze_audio_with_ai` (the `if risk_score > 0.8 ... else ...`
chain). -/
def alertLevelForRisk (riskScore : ℚ) : String × String :=
  if riskScore > 0.8 then ("CRITICAL", "IMMEDIATE_RUNWAY_CLOSURE")
  else if riskScore > 0.6 then ("HIGH", "DELAY_TAKEOFF")
  else if riskScore > 0.4 then ("MEDIUM", "INCREASE_MONITORING")
  else ("LOW", "CONTINUE_NORMAL")

/-! ## `strategic_response.py`: predator sound library -/

/-- `True` when `keyword` occurs as a substring of `s`
(Python `keyword in s`). -/
def strContains (s keyword : String) : Bool :=
  s.containsSubstr keyword.toSubstring

/-- The `predator_mappings` table of `PredatorSoundLibrary.__init__`,
keyed by bird category. -/
def predatorMappings (category : String) : List String :=
  if category = "corvids" then ["hawk_screech", "eagle_cry", "falcon_call"]
  else if category = "passerines" then ["cat_meow", "snake_hiss", "hawk_screech"]
  else if category = "raptors" then ["owl_hoot", "hawk_screech"]
  else if category = "waterfowl" then ["fox_bark", "coyote_howl", "hawk_screech"]
  else ["hawk_screech", "eagle_cry", "owl_hoot"]

/-- The substring-based bird-category classification at the top of
`get_effective_predator_sound`. -/
def birdCategory (species : String) : String :=
  let lower := species.toLower
  if ["crow", "raven", "magpie", "jay"].any (fun kw => strContains lower kw) then
    "corvids"
  else if ["sparrow", "finch", "warbler", "robin"].any (fun kw => strContains lower kw) then
    "passerines"
  else if ["hawk", "eagle", "falcon", "kestrel"].any (fun kw => strContains lower kw) then
    "raptors"
  else if ["duck", "goose", "swan", "gull"].any (fun kw => strContains lower kw) then
    "waterfowl"
  else "default"

/-- `get_effective_predator_sound(bird_species, bird_behavior)` over a sound
cache listing the loaded sound names.  `random.choice` is modelled by the
extra `choiceIdx` argument selecting among the final candidates.  The
result is `none` exactly when the final fallback
`list(self.sound_cache.keys())[0]` raises `IndexError`. -/
def getEffectivePredatorSound (cache : List String) (choiceIdx : Nat)
    (species behavior : String) : Option String :=
  let mappedSounds := predatorMappings (birdCategory species)
  let availableSounds := mappedSounds.filter (fun s => s ∈ cache)
  let availableSounds := if availableSounds.isEmpty then cache else availableSounds
  let behaviorLower := behavior.toLower
  let availableSounds :=
    if strContains behaviorLower "territorial" || strContains behaviorLower "aggressive" then
      let aggressiveSounds := ["hawk_screech", "eagle_cry", "falcon_call"]
      let aggressiveAvailable := availableSounds.filter (fun s => s ∈ aggressiveSounds)
      if !aggressiveAvailable.isEmpty then aggressiveAvailable else availableSounds
    else availableSounds
  if !availableSounds.isEmpty then
    availableSounds.get? (choiceIdx % availableSounds.length)
  else
    cache.get? 0

/-- The mutable playback state of a `PredatorSoundLibrary` instance.
`playbackThread` is the `_playback_thread` handle bookkeeping (the sound
whose loop the handle refers to, `none` after a stop), `stopEvent` the
`_stop_playback_event` flag, `observerStatus` the `is_predator_playing`
status last pushed to the communication analyzer, and `liveLoops` the
playback-loop threads actually alive, in start order.  Live loops can
outnumber the tracked handle: `stop_predator_sound` joins with
`timeout=2`, so a loop sleeping through a sound longer than two seconds
survives the join while the handle is cleared anyway. -/
structure PlayerState where
  cache : List String
  playbackThread : Option String
  stopEvent : Bool
  observerStatus : Bool
  liveLoops : List String
deriving DecidableEq, Repr

/-- `stop_predator_sound`, with the scheduler outcome made explicit: sets
the stop event, joins the tracked thread with `timeout=2`, clears the
handle, stops the mixer, and notifies the analyzer that no predator sound
is active.  A live loop exits only if it wakes from its `time.sleep` and
observes the set event during the call; `loopsExit = true` is the
schedule where every live loop does so (the join returned in time),
`loopsExit = false` the schedule where none does (the join timed out
while the loop sleeps through a long sound).  Both are possible runs of
the source, and the call returns either way with the bookkeeping
cleared. -/
def stopPredatorSound (loopsExit : Bool) (s : PlayerState) : PlayerState :=
  { s with
    stopEvent := true
    playbackThread := none
    observerStatus := false
    liveLoops := if loopsExit then [] else s.liveLoops }

/-- `play_predator_sound(sound_name, ...)`: first runs
`stop_predator_sound` (with scheduler outcome `loopsExit`), then — only
if the sound is cached — clears the shared stop event and starts a fresh
playback loop (which notifies the analyzer that a predator sound is
active).  Clearing the event before a timed-out old loop has observed it
revives that loop: it wakes to a cleared event and keeps playing, so two
loops can be alive at once.  Returns the success flag. -/
def playPredatorSound (loopsExit : Bool) (s : PlayerState)
    (soundName : String) : PlayerState × Bool :=
  let s := stopPredatorSound loopsExit s
  if soundName ∈ s.cache then
    ({ s with stopEvent := false, playbackThread := some soundName,
              observerStatus := true,
              liveLoops := s.liveLoops ++ [soundName] }, true)
  else
    (s, false)

/-- Number of playback loops actually alive. -/
def activeCount (s : PlayerState) : Nat :=
  s.liveLoops.length

/-! ## `strategic_response.py`: strategic response system -/

/-- The `ActionType` enumeration. -/
inductive ActionType where
  | MONITOR
  | DELAY
  | REDIRECT
  | EVACUATE
  | SOUND_DETERRENT
  | EMERGENCY_STOP
deriving DecidableEq, Repr

/-- The `StrategicAction` dataclass. -/
structure StrategicAction where
  action_type : ActionType
  priority : Nat
  description : String
  estimated_duration : Nat
  resources_required : List String
  success_probability : ℚ
  risk_assessment : String
  automated : Bool
deriving DecidableEq, Repr

/-- `_generate_low_threat_strategies`. -/
def generateLowThreatStrategies : List StrategicAction :=
  [{ action_type := .MONITOR, priority := 1,
     description := "Continue passive monitoring with standard sensors",
     estimated_duration := 15,
     resources_required := ["audio_sensors", "visual_monitoring"],
     success_probability := 0.9,
     risk_assessment := "Minimal risk - routine monitoring sufficient",
     automated := true },
   { action_type := .SOUND_DETERRENT, priority := 2,
     description := "Gentle sound deterrent if bird approaches critical zones",
     estimated_duration := 2,
     resources_required := ["speaker_system"],
     success_probability := 0.7,
     risk_assessment := "Low risk - gentle deterrent should be sufficient",
     automated := true }]

/-- `_generate_medium_threat_strategies`: two automated actions, plus a
manual DELAY appended only when flock communication was detected. -/
def generateMediumThreatStrategies (species : String) (flock : Bool) :
    List StrategicAction :=
  let strategies :=
    [{ action_type := .SOUND_DETERRENT, priority := 1,
       description := "Deploy predator sound deterrent optimized for " ++ species,
       estimated_duration := 5,
       resources_required := ["speaker_system", "predator_sounds"],
       success_probability := 0.8,
       risk_assessment := "Medium risk - sound deterrent should be effective",
       automated := true },
     { action_type := .MONITOR, priority := 2,
       description := "Enhanced monitoring with increased sensor sensitivity",
       estimated_duration := 10,
       resources_required := ["audio_sensors", "visual_monitoring", "radar"],
       success_probability := 0.85,
       risk_assessment := "Essential for tracking bird response to deterrent",
       automated := true }]
  if flock then
    strategies ++
      [{ action_type := .DELAY, priority := 3,
         description := "Consider brief operational delay if deterrent ineffective",
         estimated_duration := 3,
         resources_required := ["air_traffic_control"],
         success_probability := 0.95,
         risk_assessment := "Precautionary delay to prevent flock collision",
         automated := false }]
  else strategies

/-- `_generate_high_threat_strategies`. -/
def generateHighThreatStrategies (species : String) : List StrategicAction :=
  [{ action_type := .SOUND_DETERRENT, priority := 1,
     description := "Immediate intensive predator sound deployment for " ++ species,
     estimated_duration := 3,
     resources_required := ["speaker_system", "predator_sounds"],
     success_probability := 0.75,
     risk_assessment := "High urgency - immediate deterrent required",
     automated := true },
   { action_type := .DELAY, priority := 2,
     description := "Implement operational delay until threat clears",
     estimated_duration := 10,
     resources_required := ["air_traffic_control", "operations_team"],
     success_probability := 0.9,
     risk_assessment := "Necessary precaution for high-risk scenario",
     automated := false },
   { action_type := .REDIRECT, priority := 3,
     description := "Prepare alternative routing if delay extends",
     estimated_duration := 15,
     resources_required := ["air_traffic_control", "flight_planning"],
     success_probability := 0.8,
     risk_assessment := "Contingency plan for extended bird presence",
     automated := false }]

/-- `_generate_critical_threat_strategies`. -/
def generateCriticalThreatStrategies : List StrategicAction :=
  [{ action_type := .EMERGENCY_STOP, priority := 1,
     description := "Immediate emergency stop of all runway operations",
     estimated_duration := 1,
     resources_required := ["emergency_protocols", "all_personnel"],
     success_probability := 0.99,
     risk_assessment := "Critical - immediate action required",
     automated := true },
   { action_type := .SOUND_DETERRENT, priority := 2,
     description := "Maximum intensity predator sound deployment",
     estimated_duration := 5,
     resources_required := ["speaker_system", "predator_sounds"],
     success_probability := 0.7,
     risk_assessment := "Emergency deterrent - all available resources",
     automated := true },
   { action_type := .EVACUATE, priority := 3,
     description := "Evacuate aircraft from immediate danger zone",
     estimated_duration := 20,
     resources_required := ["ground_crew", "emergency_vehicles"],
     success_probability := 0.95,
     risk_assessment := "Essential for preventing catastrophic collision",
     automated := false }]

/-- The `ThreatLevel` enumeration. -/
inductive ThreatLevel where
  | LOW
  | MEDIUM
  | HIGH
  | CRITICAL
deriving DecidableEq, Repr

/-- The `strategy_templates` dispatch of
`generate_next_action_recommendation` (the species and flock flag are the
pieces of `bird_data` each template reads). -/
def strategyTemplate (tl : ThreatLevel) (species : String) (flock : Bool) :
    List StrategicAction :=
  match tl with
  | .LOW => generateLowThreatStrategies
  | .MEDIUM => generateMediumThreatStrategies species flock
  | .HIGH => generateHighThreatStrategies species
  | .CRITICAL => generateCriticalThreatStrategies

/-- `execute_automated_response`: walks the recommended actions in order;
a non-automated action is skipped; an automated SOUND_DETERRENT is skipped
by the explicit `continue` (the manual-trigger safety gate); otherwise a
MONITOR or EMERGENCY_STOP handler is invoked, and the action is logged.
Returns the handler invocations and the log entries, in execution order. -/
def executeAutomatedResponse :
    List StrategicAction → List StrategicAction × List StrategicAction
  | [] => ([], [])
  | action :: rest =>
    let acc := executeAutomatedResponse rest
    if action.automated then
      if action.action_type = .SOUND_DETERRENT then acc
      else if action.action_type = .MONITOR ∨ action.action_type = .EMERGENCY_STOP then
        (action :: acc.1, action :: acc.2)
      else (acc.1, action :: acc.2)
    else acc

/-- `AIDecisionEngine._get_historical_context`: the similar-incident count
is the number of `decision_history` entries whose `species` entry equals
the given species (`incident.get('species')`, hence `Option String`). -/
def similarIncidentCount (decisionHistory : List (Option String))
    (species : String) : Nat :=
  (decisionHistory.filter (fun sp => sp = some species)).length

/-- `StrategicResponseSystem._calculate_confidence_score(analysis,
strategies)`, taking the two pieces of `analysis` it reads: the
complexity-factor list and the historical similar-incident count. -/
def calculateConfidenceScore (complexityFactors : List String)
    (similarIncidents : Nat) (strategies : List StrategicAction) : ℚ :=
  let baseConfidence : ℚ := 0.8
  let confidenceReduction : ℚ := min ((complexityFactors.length : ℚ) * 0.1) 0.3
  let baseConfidence :=
    if similarIncidents > 5 then baseConfidence + 0.1 else baseConfidence
  let avgStrategySuccess :=
    (strategies.map (fun s => s.success_probability)).sum / (strategies.length : ℚ)
  let combinedConfidence := (baseConfidence + avgStrategySuccess) / 2
  max 0 (min 1 (combinedConfidence - confidenceReduction))

/-- Modelled from the claim wording (not from the source), for comparison
with `calculateConfidenceScore`: the confidence equals
`clamp(0, 1, (0.8 + avg) / 2 - min(0.1 * |complexity|, 0.3))` with a +0.1
bonus applied to that score when the similar-incident count exceeds 5. -/
def claimedConfidenceScore (complexityFactors : List String)
    (similarIncidents : Nat) (strategies : List StrategicAction) : ℚ :=
  let avgStrategySuccess :=
    (strategies.map (fun s => s.success_probability)).sum / (strategies.length : ℚ)
  max 0 (min 1 ((0.8 + avgStrategySuccess) / 2 -
    min ((complexityFactors.length : ℚ) * 0.1) 0.3)) +
    (if similarIncidents > 5 then 0.1 else 0)

/-! ## Helper lemmas -/

/-- The species base-risk catalog only contains risks in `[0, 1]`
(including the 0.3 default for unknown species). -/
lemma speciesRiskLookup_bounds (species : String) :
    0 ≤ speciesRiskLookup species ∧ speciesRiskLookup species ≤ 1 := by
  unfold speciesRiskLookup
  split_ifs <;> norm_num

/-- Every intent multiplier lies in `[0.8, 1.5]` (including the 1.0
default for unknown intents). -/
lemma intentMultipliers_bounds (intent : String) :
    (0.8 : ℚ) ≤ intentMultipliers intent ∧ intentMultipliers intent ≤ 1.5 := by
  unfold intentMultipliers
  split_ifs <;> norm_num

/-- `(executeAutomatedResponse l).2`, the logged actions, are exactly the
automated actions that are not sound deterrents, in order. -/
lemma executeAutomatedResponse_snd (l : List StrategicAction) :
    (executeAutomatedResponse l).2 = l.filter
      (fun a => a.automated &&
        !(decide (a.action_type = ActionType.SOUND_DETERRENT))) := by
  induction l with
  | nil => rfl
  | cons a rest ih =>
    by_cases ha : a.automated
    · by_cases hs : a.action_type = ActionType.SOUND_DETERRENT
      · simp [executeAutomatedResponse, ha, hs, ih, List.filter_cons]
      · by_cases hm : a.action_type = ActionType.MONITOR ∨
            a.action_type = ActionType.EMERGENCY_STOP
        · simp [executeAutomatedResponse, ha, hs, hm, ih, List.filter_cons]
        · simp [executeAutomatedResponse, ha, hs, hm, ih, List.filter_cons]
    · simp [executeAutomatedResponse, ha, ih, List.filter_cons]

/-- `(executeAutomatedResponse l).1`, the handler invocations, are exactly
the automated MONITOR / EMERGENCY_STOP actions, in order. -/
lemma executeAutomatedResponse_fst (l : List StrategicAction) :
    (executeAutomatedResponse l).1 = l.filter
      (fun a => a.automated &&
        decide (a.action_type = ActionType.MONITOR ∨
                a.action_type = ActionType.EMERGENCY_STOP)) := by
  induction l with
  | nil => rfl
  | cons a rest ih =>
    by_cases ha : a.automated
    · by_cases hs : a.action_type = ActionType.SOUND_DETERRENT
      · simp [executeAutomatedResponse, ha, hs, ih, List.filter_cons]
      · by_cases hm : a.action_type = ActionType.MONITOR ∨
            a.action_type = ActionType.EMERGENCY_STOP
        · simp [executeAutomatedResponse, ha, hs, hm, ih, List.filter_cons]
        · simp [executeAutomatedResponse, ha, hs, hm, ih, List.filter_cons]
    · simp [executeAutomatedResponse, ha, ih, List.filter_cons]

/-- Python's first-max scan: the fold result splits the scanned list into
a prefix of strictly smaller values, the result itself, and a suffix of
values not exceeding it — i.e. it is the first maximum. -/
lemma foldl_maxStep_spec (xs : List (String × ℚ)) : ∀ x : String × ℚ,
    ∃ l₁ l₂, x :: xs = l₁ ++ (xs.foldl maxStep x) :: l₂ ∧
      (∀ q ∈ l₁, q.2 < (xs.foldl maxStep x).2) ∧
      (∀ q ∈ l₂, q.2 ≤ (xs.foldl maxStep x).2) := by
  induction xs with
  | nil =>
    intro x
    exact ⟨[], [], rfl, by simp, by simp⟩
  | cons y ys ih =>
    intro x
    have hfold : (y :: ys).foldl maxStep x = ys.foldl maxStep (maxStep x y) := rfl
    rw [hfold]
    obtain ⟨l₁, l₂, hdec, hlt, hle⟩ := ih (maxStep x y)
    by_cases hxy : y.2 > x.2
    · have hstep : maxStep x y = y := if_pos hxy
      rw [hstep] at hdec hlt hle ⊢
      have hy_le : y.2 ≤ (ys.foldl maxStep y).2 := by
        have hy_mem : y ∈ y :: ys := List.mem_cons_self _ _
        rw [hdec] at hy_mem
        rcases List.mem_append.mp hy_mem with h | h
        · exact le_of_lt (hlt _ h)
        · rcases List.mem_cons.mp h with h | h
          · exact le_of_eq (congrArg Prod.snd h)
          · exact hle _ h
      refine ⟨x :: l₁, l₂, ?_, ?_, hle⟩
      · rw [List.cons_append, ← hdec]
      · intro q hq
        rcases List.mem_cons.mp hq with h | h
        · rw [h]; exact lt_of_lt_of_le hxy hy_le
        · exact hlt _ h
    · have hstep : maxStep x y = x := if_neg hxy
      push_neg at hxy
      rw [hstep] at hdec hlt hle ⊢
      cases l₁ with
      | nil =>
        simp only [List.nil_append] at hdec
        injection hdec with hx hys
        refine ⟨[], y :: l₂, ?_, by simp, ?_⟩
        · rw [List.nil_append]
          conv_lhs => rw [hys]
          conv_lhs => rw [hx]
        · intro q hq
          rcases List.mem_cons.mp hq with h | h
          · rw [h, ← hx]; exact hxy
          · exact hle _ h
      | cons a l₁' =>
        rw [List.cons_append] at hdec
        injection hdec with hxa hys
        have hx_lt : x.2 < (ys.foldl maxStep x).2 := by
          have := hlt a (List.mem_cons_self _ _)
          rw [← hxa] at this
          exact this
        refine ⟨x :: y :: l₁', l₂, ?_, ?_, hle⟩
        · rw [List.cons_append, List.cons_append]
          conv_lhs => rw [hys]
        · intro q hq
          rcases List.mem_cons.mp hq with h | h
          · rw [h]; exact hx_lt
          · rcases List.mem_cons.mp h with h2 | h2
            · rw [h2]; exact lt_of_le_of_lt hxy hx_lt
            · exact hlt _ (List.mem_cons_of_mem _ h2)

/-- The pre-normalization contributions: landing_approach and
normal_flight are always 0, the other three are non-negative. -/
lemma intentContributions_bounds (alarm territorial flock : Bool)
    (history : List PatternDict) (la td fg pa nf : ℚ)
    (hc : intentContributions alarm territorial flock history =
      (la, td, fg, pa, nf)) :
    la = 0 ∧ 0 ≤ td ∧ 0 ≤ fg ∧ 0 ≤ pa ∧ nf = 0 := by
  simp only [intentContributions] at hc
  split_ifs at hc <;>
    (simp only [Prod.mk.injEq] at hc
     obtain ⟨h1, h2, h3, h4, h5⟩ := hc
     exact ⟨h1.symm, by rw [← h2] <;> norm_num, by rw [← h3] <;> norm_num,
            by rw [← h4] <;> norm_num, h5.symm⟩)

/-! ## Claim theorems -/

/-- C1: for every species, detection confidence in `[0, 1]`, communication
pattern (any urgency string and any flag combination), and behavioral
intent whose confidence is in `[0, 1]`, the enhanced risk score is defined
and lies in `[0, 1]`, however the additive bonuses and the intent
multiplier stack. -/
theorem risk_score_bounded (species : String) (confidence : ℚ)
    (ct es bc urgency : String) (flock territorial alarm : Bool)
    (bi : BehavioralPrediction)
    (hc0 : 0 ≤ confidence) (hc1 : confidence ≤ 1)
    (hb0 : 0 ≤ bi.confidence) (hb1 : bi.confidence ≤ 1) :
    ∃ r, calculateEnhancedRiskScore species confidence
        (PatternDict.mk (some ct) (some es) (some bc) (some urgency)
          (some flock) (some territorial) (some alarm)) bi = some r ∧
      0 ≤ r ∧ r ≤ 1 := by
  have hbase := speciesRiskLookup_bounds species
  have hmult := intentMultipliers_bounds bi.primary_intent
  have h1 : (0 : ℚ) ≤ if alarm then (0.2 : ℚ) else 0 := by
    split_ifs <;> norm_num
  have h2 : (0 : ℚ) ≤
      (if urgency = "critical" then (0.3 : ℚ)
       else if urgency = "high" then 0.15 else 0) := by
    split_ifs <;> norm_num
  have h3 : (0 : ℚ) ≤ if flock then (0.1 : ℚ) else 0 := by
    split_ifs <;> norm_num
  have hsum : 0 ≤ speciesRiskLookup species * confidence +
      (if alarm then (0.2 : ℚ) else 0) +
      (if urgency = "critical" then (0.3 : ℚ)
       else if urgency = "high" then 0.15 else 0) +
      (if flock then (0.1 : ℚ) else 0) :=
    add_nonneg (add_nonneg (add_nonneg (mul_nonneg hbase.1 hc0) h1) h2) h3
  have hfac : 0 ≤ 1 + (intentMultipliers bi.primary_intent - 1) * bi.confidence := by
    nlinarith [mul_nonneg (show (0 : ℚ) ≤ intentMultipliers bi.primary_intent - 0.8 by
      linarith [hmult.1]) hb0]
  simp only [calculateEnhancedRiskScore]
  exact ⟨_, rfl, le_min (mul_nonneg hsum hfac) (by norm_num), min_le_right _ _⟩

/-- Witness for C1 on an input where the pre-clamp score exceeds 1. -/
theorem risk_score_bounded_witness :
    ∃ r, calculateEnhancedRiskScore "Corvus splendens" 0.9
        (PatternDict.mk (some "contact_call") (some "neutral")
          (some "normal") (some "critical") (some true) (some false)
          (some true))
        (BehavioralPrediction.mk "landing_approach" 1 []) = some r ∧
      0 ≤ r ∧ r ≤ 1 :=
  risk_score_bounded "Corvus splendens" 0.9 "contact_call" "neutral"
    "normal" "critical" true false true
    (BehavioralPrediction.mk "landing_approach" 1 [])
    (by norm_num) (by norm_num) (by norm_num) (by norm_num)

/-- C3: in every run of `execute_automated_response`, no SOUND_DETERRENT
action is ever handed to a handler (the sound player is never engaged
automatically); the logged actions are exactly the automated non-sound
actions; and on every recommendation the strategy templates can produce,
every automated non-sound action is handler-executed. -/
theorem sound_deterrent_never_auto_executed (actions : List StrategicAction) :
    (∀ a ∈ (executeAutomatedResponse actions).1,
        a.automated = true ∧ a.action_type ≠ ActionType.SOUND_DETERRENT) ∧
    ((executeAutomatedResponse actions).2 = actions.filter
      (fun a => a.automated &&
        !(decide (a.action_type = ActionType.SOUND_DETERRENT)))) ∧
    (∀ (tl : ThreatLevel) (species : String) (flock : Bool),
      (executeAutomatedResponse (strategyTemplate tl species flock)).1 =
        (strategyTemplate tl species flock).filter
          (fun a => a.automated &&
            !(decide (a.action_type = ActionType.SOUND_DETERRENT)))) := by
  refine ⟨?_, executeAutomatedResponse_snd actions, ?_⟩
  · intro a ha
    rw [executeAutomatedResponse_fst] at ha
    have hpred := List.of_mem_filter ha
    simp only [Bool.and_eq_true, decide_eq_true_eq] at hpred
    refine ⟨hpred.1, ?_⟩
    rcases hpred.2 with h | h <;> simp [h]
  · intro tl species flock
    rw [executeAutomatedResponse_fst]
    cases tl <;> cases flock <;>
      simp [strategyTemplate, generateLowThreatStrategies,
        generateMediumThreatStrategies, generateHighThreatStrategies,
        generateCriticalThreatStrategies, List.filter_cons]

/-- Witness for C3: the automated MONITOR action of the low-threat
template is handler-executed and is not a sound deterrent. -/
theorem sound_deterrent_never_auto_executed_witness :
    (StrategicAction.mk ActionType.MONITOR 1
        "Continue passive monitoring with standard sensors" 15
        ["audio_sensors", "visual_monitoring"] 0.9
        "Minimal risk - routine monitoring sufficient" true).automated = true ∧
    (StrategicAction.mk ActionType.MONITOR 1
        "Continue passive monitoring with standard sensors" 15
        ["audio_sensors", "visual_monitoring"] 0.9
        "Minimal risk - routine monitoring sufficient" true).action_type ≠
      ActionType.SOUND_DETERRENT :=
  (sound_deterrent_never_auto_executed generateLowThreatStrategies).1 _
    (by simp [generateLowThreatStrategies, executeAutomatedResponse])

/-- C7: the risk score maps to alert level and recommended action through
strict `>` thresholds, boundaries belonging to the lower tier; in
particular a risk score of exactly 0.8 yields HIGH / DELAY_TAKEOFF. -/
theorem alert_thresholds_are_strict (r : ℚ) :
    (r > 0.8 → alertLevelForRisk r = ("CRITICAL", "IMMEDIATE_RUNWAY_CLOSURE")) ∧
    (r ≤ 0.8 → r > 0.6 → alertLevelForRisk r = ("HIGH", "DELAY_TAKEOFF")) ∧
    (r ≤ 0.6 → r > 0.4 → alertLevelForRisk r = ("MEDIUM", "INCREASE_MONITORING")) ∧
    (r ≤ 0.4 → alertLevelForRisk r = ("LOW", "CONTINUE_NORMAL")) ∧
    alertLevelForRisk 0.8 = ("HIGH", "DELAY_TAKEOFF") := by
  refine ⟨?_, ?_, ?_, ?_, ?_⟩
  · intro h; simp only [alertLevelForRisk]; rw [if_pos h]
  · intro h1 h2; simp only [alertLevelForRisk]
    rw [if_neg (by linarith), if_pos h2]
  · intro h1 h2; simp only [alertLevelForRisk]
    rw [if_neg (by linarith), if_neg (by linarith), if_pos h2]
  · intro h1; simp only [alertLevelForRisk]
    rw [if_neg (by linarith), if_neg (by linarith), if_neg (by linarith)]
  · simp only [alertLevelForRisk]
    rw [if_neg (by norm_num), if_pos (by norm_num)]

/-- Witness for C7 at the boundary risk score 0.8. -/
theorem alert_thresholds_are_strict_witness :
    (0.8 : ℚ) ≤ 0.8 ∧ (0.8 : ℚ) > 0.6 ∧
    alertLevelForRisk 0.8 = ("HIGH", "DELAY_TAKEOFF") :=
  ⟨by norm_num, by norm_num,
   (alert_thresholds_are_strict 0.8).2.1 (by norm_num) (by norm_num)⟩

/-- C9: `stop_predator_sound` is idempotent on the bookkeeping state the
claim names — after one call (under any scheduler outcome) the thread
handle is cleared, the stop event set and the observer notified of no
active sound, and a second call (under any scheduler outcome) leaves all
of that, and the cache, unchanged; with the same scheduler outcome the
whole state is literally identical.  Stopping never starts anything, so
calling it when nothing is playing is a safe no-op on the playback
activity. -/
theorem stop_is_idempotent (b1 b2 : Bool) (s : PlayerState) :
    stopPredatorSound b1 (stopPredatorSound b1 s) = stopPredatorSound b1 s ∧
    (stopPredatorSound b2 (stopPredatorSound b1 s)).playbackThread =
      (stopPredatorSound b1 s).playbackThread ∧
    (stopPredatorSound b2 (stopPredatorSound b1 s)).stopEvent =
      (stopPredatorSound b1 s).stopEvent ∧
    (stopPredatorSound b2 (stopPredatorSound b1 s)).observerStatus =
      (stopPredatorSound b1 s).observerStatus ∧
    (stopPredatorSound b2 (stopPredatorSound b1 s)).cache =
      (stopPredatorSound b1 s).cache ∧
    (stopPredatorSound b1 s).playbackThread = none ∧
    (stopPredatorSound b1 s).stopEvent = true ∧
    (stopPredatorSound b1 s).observerStatus = false ∧
    (stopPredatorSound b1 s).cache = s.cache ∧
    activeCount (stopPredatorSound b1 s) ≤ activeCount s := by
  cases b1 <;> cases b2 <;> simp [stopPredatorSound, activeCount]

/-- C2 (code behavior at the failing input): `play('hawk_screech')` then
`play('owl_hoot')`, both cached.  During the second play's internal stop,
the first loop is sleeping through a sound longer than the 2-second join
timeout (`loopsExit = false`), so the join returns with it alive, and
`play` then clears the shared `_stop_playback_event` before the old loop
observes it.  The old loop wakes to a cleared event and keeps playing
alongside the new thread: two playback loops are alive, refuting "at most
one playback is active and it is the last sound started". -/
theorem timed_out_join_revives_old_loop :
    (playPredatorSound true
      (PlayerState.mk ["hawk_screech", "owl_hoot"] none false false [])
      "hawk_screech").2 = true ∧
    (playPredatorSound false
      ((playPredatorSound true
        (PlayerState.mk ["hawk_screech", "owl_hoot"] none false false [])
        "hawk_screech").1) "owl_hoot").2 = true ∧
    (playPredatorSound false
      ((playPredatorSound true
        (PlayerState.mk ["hawk_screech", "owl_hoot"] none false false [])
        "hawk_screech").1) "owl_hoot").1.liveLoops =
      ["hawk_screech", "owl_hoot"] ∧
    1 < activeCount ((playPredatorSound false
      ((playPredatorSound true
        (PlayerState.mk ["hawk_screech", "owl_hoot"] none false false [])
        "hawk_screech").1) "owl_hoot").1) := by
  refine ⟨?_, ?_, ?_, ?_⟩ <;>
    simp [playPredatorSound, stopPredatorSound, activeCount]

/-- C6 (code behavior at the failing input): with an empty sound library,
`get_effective_predator_sound` reaches the fallback
`list(self.sound_cache.keys())[0]` for every species and behavior, which
raises `IndexError` (modelled by `none`) instead of returning a
deterministic error result. -/
theorem empty_library_selection_raises (species behavior : String)
    (choiceIdx : Nat) :
    getEffectivePredatorSound [] choiceIdx species behavior = none := by
  simp [getEffectivePredatorSound]

/-- C4 (counterexample): for the House Crow (whose alarm-pattern set
contains both `rapid_succession` and `pitch_variation`), a feature vector
with tempo 200 > 180 and zero-crossing variance 1/50 > 0.015 first sets
urgency to `critical`, and the later `pitch_variation` rule then lowers it
back to `high` — the classifier output is not `critical`, contradicting
the claim that the downgrade cannot happen. -/
theorem pitch_variation_downgrades_critical :
    "rapid_succession" ∈ speciesAlarmPatterns "Corvus splendens" ∧
    "pitch_variation" ∈ speciesAlarmPatterns "Corvus splendens" ∧
    (200 : ℚ) > 180 ∧ (1 / 50 : ℚ) > 0.015 ∧
    (analyzeCommunicationPatterns (some (AudioFeatures.mk 1000 200 (1 / 50)))
        (some "Corvus splendens")).urgency_level ≠ some "critical" ∧
    (analyzeCommunicationPatterns (some (AudioFeatures.mk 1000 200 (1 / 50)))
        (some "Corvus splendens")).urgency_level = some "high" := by
  refine ⟨by simp [speciesAlarmPatterns], by simp [speciesAlarmPatterns],
    by norm_num, by norm_num, ?_, ?_⟩ <;>
  · norm_num [analyzeCommunicationPatterns, defaultPatterns,
      speciesAlarmPatterns] <;> decide

/-- C4 (amended): the `pitch_variation` rule is applied unconditionally,
so whenever a species' alarm-pattern set contains `pitch_variation` and
zcr variance exceeds 0.015, the final urgency is `high` — even when the
`rapid_succession` rule (tempo > 180) had already set it to `critical`,
which the later rule downgrades. -/
theorem pitch_variation_rule_is_unconditional (f : AudioFeatures)
    (sci : String)
    (h1 : "pitch_variation" ∈ speciesAlarmPatterns sci)
    (h2 : f.zcrVariance > 0.015) :
    (analyzeCommunicationPatterns (some f) (some sci)).urgency_level =
      some "high" := by
  have hcond : "pitch_variation" ∈ speciesAlarmPatterns sci ∧
      f.zcrVariance > 0.015 := ⟨h1, h2⟩
  simp only [analyzeCommunicationPatterns]
  split_ifs <;> simp_all

/-- Witness for the amended C4 on the concrete downgrading input. -/
theorem pitch_variation_rule_is_unconditional_witness :
    "pitch_variation" ∈ speciesAlarmPatterns "Corvus splendens" ∧
    (analyzeCommunicationPatterns (some (AudioFeatures.mk 3500 200 (1 / 50)))
        (some "Corvus splendens")).urgency_level = some "high" :=
  ⟨by decide,
   pitch_variation_rule_is_unconditional (AudioFeatures.mk 3500 200 (1 / 50))
     "Corvus splendens" (by decide) (by norm_num)⟩

/-- C10: handed a pattern mapping that lacks any of the three expected
boolean keys, `predict_behavioral_intent` does not raise: it returns
primary intent `unknown` (a value outside the closed five-intent set),
confidence 0, and an empty score mapping whose values sum to 0, not 1. -/
theorem missing_pattern_keys_give_unknown (p : PatternDict)
    (history : List PatternDict)
    (h : p.alarm_signal = none ∨ p.territorial_behavior = none ∨
         p.flock_communication = none) :
    predictBehavioralIntent p history =
      BehavioralPrediction.mk "unknown" 0 [] ∧
    "unknown" ∉ ["landing_approach", "territory_defense", "flock_gathering",
                 "predator_avoidance", "normal_flight"] ∧
    sumValues (predictBehavioralIntent p history).all_scores = 0 ∧
    sumValues (predictBehavioralIntent p history).all_scores ≠ 1 := by
  obtain ⟨ct, es, bc, ul, fc, tb, al⟩ := p
  rcases al with _ | a <;> rcases tb with _ | t <;> rcases fc with _ | fl <;>
    simp_all [predictBehavioralIntent, sumValues]

/-- Witness for C10 on a fully empty mapping. -/
theorem missing_pattern_keys_give_unknown_witness :
    predictBehavioralIntent
        (PatternDict.mk none none none none none none none) [] =
      BehavioralPrediction.mk "unknown" 0 [] :=
  (missing_pattern_keys_give_unknown
    (PatternDict.mk none none none none none none none) [] (Or.inl rfl)).1

/-- C5: on a pattern with all three boolean keys present, the intent
scores form a probability distribution — summing to 1, non-negative, over
the five intents in fixed declaration order; when the contribution total
is positive every weight is the contribution divided by the total,
otherwise the result is exactly normal flight 1 and all others 0; and the
primary intent together with the returned confidence is the first maximum
of the score list (strictly greater than everything before it, at least
everything after it). -/
theorem intent_scores_form_distribution (p : PatternDict)
    (history : List PatternDict) (alarm territorial flock : Bool)
    (la td fg pa nf : ℚ)
    (ha : p.alarm_signal = some alarm)
    (ht : p.territorial_behavior = some territorial)
    (hf : p.flock_communication = some flock)
    (hc : intentContributions alarm territorial flock history =
      (la, td, fg, pa, nf)) :
    sumValues (predictBehavioralIntent p history).all_scores = 1 ∧
    (∀ q ∈ (predictBehavioralIntent p history).all_scores, 0 ≤ q.2) ∧
    ((predictBehavioralIntent p history).all_scores.map Prod.fst =
      ["landing_approach", "territory_defense", "flock_gathering",
       "predator_avoidance", "normal_flight"]) ∧
    (la + td + fg + pa + nf > 0 →
      (predictBehavioralIntent p history).all_scores =
        [("landing_approach", la / (la + td + fg + pa + nf)),
         ("territory_defense", td / (la + td + fg + pa + nf)),
         ("flock_gathering", fg / (la + td + fg + pa + nf)),
         ("predator_avoidance", pa / (la + td + fg + pa + nf)),
         ("normal_flight", nf / (la + td + fg + pa + nf))]) ∧
    (¬ la + td + fg + pa + nf > 0 →
      (predictBehavioralIntent p history).all_scores =
        [("landing_approach", 0), ("territory_defense", 0),
         ("flock_gathering", 0), ("predator_avoidance", 0),
         ("normal_flight", 1)]) ∧
    (∃ l₁ l₂, (predictBehavioralIntent p history).all_scores =
        l₁ ++ ((predictBehavioralIntent p history).primary_intent,
               (predictBehavioralIntent p history).confidence) :: l₂ ∧
      (∀ q ∈ l₁, q.2 < (predictBehavioralIntent p history).confidence) ∧
      (∀ q ∈ l₂, q.2 ≤ (predictBehavioralIntent p history).confidence)) := by
  obtain ⟨hla, htd0, hfg0, hpa0, hnf⟩ :=
    intentContributions_bounds alarm territorial flock history la td fg pa nf hc
  obtain ⟨ct, es, bc, ul, fc, tb, al⟩ := p
  simp only at ha ht hf
  subst ha; subst ht; subst hf
  simp only [predictBehavioralIntent, hc]
  by_cases hpos : la + td + fg + pa + nf > 0
  · rw [if_pos hpos]
    have hT : la + td + fg + pa + nf ≠ 0 := ne_of_gt hpos
    refine ⟨?_, ?_, by simp, fun _ => rfl, fun h => absurd hpos h, ?_⟩
    · simp only [sumValues, List.map_cons, List.map_nil, List.sum_cons,
        List.sum_nil, add_zero]
      field_simp
      ring
    · intro q hq
      have hTnn : (0 : ℚ) ≤ la + td + fg + pa + nf := le_of_lt hpos
      simp only [List.mem_cons, List.not_mem_nil, or_false] at hq
      rcases hq with h | h | h | h | h <;> rw [h] <;>
        exact div_nonneg (by linarith) hTnn
    · exact foldl_maxStep_spec _ _
  · rw [if_neg hpos]
    push_neg at hpos
    have htd : td = 0 := le_antisymm (by linarith) htd0
    have hfg : fg = 0 := le_antisymm (by linarith) hfg0
    have hpa : pa = 0 := le_antisymm (by linarith) hpa0
    refine ⟨?_, ?_, by simp, fun h => absurd h (by linarith), ?_, ?_⟩
    · simp [sumValues, hla, htd, hfg, hpa]
    · intro q hq
      simp only [List.mem_cons, List.not_mem_nil, or_false] at hq
      rcases hq with h | h | h | h | h <;> rw [h] <;> simp [hla, htd, hfg, hpa]
    · intro _
      rw [hla, htd, hfg, hpa]
    · exact foldl_maxStep_spec _ _

/-- Witness for C5: an alarmed, non-territorial, flocking pattern with no
history normalizes predator_avoidance 0.4 and flock_gathering 0.4 to a
distribution summing to 1. -/
theorem intent_scores_form_distribution_witness :
    sumValues (predictBehavioralIntent
      (PatternDict.mk (some "contact_call") (some "neutral") (some "normal")
        (some "low") (some true) (some false) (some true)) []).all_scores = 1 :=
  (intent_scores_form_distribution
    (PatternDict.mk (some "contact_call") (some "neutral") (some "normal")
      (some "low") (some true) (some false) (some true)) []
    true false true 0 0 0.4 0.4 0 rfl rfl rfl
    (by norm_num [intentContributions])).1

/-- C8 (counterexample): with no complexity factors, 6 similar incidents
and the critical-threat strategy list (average success probability 0.88),
the code yields (0.9 + 0.88) / 2 = 0.89, while the claimed formula — the
clamp of (0.8 + 0.88) / 2 plus a 0.1 bonus — yields 0.94. -/
theorem confidence_bonus_misstated :
    calculateConfidenceScore [] 6 generateCriticalThreatStrategies ≠
      claimedConfidenceScore [] 6 generateCriticalThreatStrategies := by
  norm_num [calculateConfidenceScore, claimedConfidenceScore,
    generateCriticalThreatStrategies, min_def, max_def]

/-- C8 (amended): the +0.1 historical bonus is added to the 0.8 base
before it is averaged with the mean success probability (an effective
+0.05 on the pre-clamp score): for every non-empty strategy list the
confidence equals
`clamp(0, 1, ((0.8 + bonus) + avg) / 2 - min(0.1 * |complexity|, 0.3))`
with bonus 0.1 exactly when the same-species incident count in the
decision history exceeds 5 — and the result is always within `[0, 1]`. -/
theorem confidence_score_formula (complexityFactors : List String)
    (decisionHistory : List (Option String)) (species : String)
    (strategies : List StrategicAction) (hne : strategies ≠ []) :
    calculateConfidenceScore complexityFactors
        (similarIncidentCount decisionHistory species) strategies =
      max 0 (min 1
        (((if 5 < similarIncidentCount decisionHistory species
            then (0.9 : ℚ) else 0.8) +
          (strategies.map (fun s => s.success_probability)).sum /
            (strategies.length : ℚ)) / 2 -
         min ((complexityFactors.length : ℚ) * 0.1) 0.3)) ∧
    0 ≤ calculateConfidenceScore complexityFactors
        (similarIncidentCount decisionHistory species) strategies ∧
    calculateConfidenceScore complexityFactors
        (similarIncidentCount decisionHistory species) strategies ≤ 1 := by
  refine ⟨?_, ?_, ?_⟩
  · simp only [calculateConfidenceScore]
    split_ifs <;> norm_num
  · exact le_max_left _ _
  · simp only [calculateConfidenceScore]
    exact max_le (by norm_num) (min_le_left _ _)

/-- Witness for the amended C8 on the low-threat template with empty
history. -/
theorem confidence_score_formula_witness :
    generateLowThreatStrategies ≠ [] ∧
    0 ≤ calculateConfidenceScore []
        (similarIncidentCount [] "House Crow") generateLowThreatStrategies ∧
    calculateConfidenceScore []
        (similarIncidentCount [] "House Crow") generateLowThreatStrategies ≤ 1 :=
  ⟨by simp [generateLowThreatStrategies],
   (confidence_score_formula [] [] "House Crow" generateLowThreatStrategies
     (by simp [generateLowThreatStrategies])).2.1,
   (confidence_score_formula [] [] "House Crow" generateLowThreatStrategies
     (by simp [generateLowThreatStrategies])).2.2⟩

end BirdStrike
